import Mathlib

/-!
Verification of the `BlizzardAdapter` JSON-RPC client
(`runtime` package, file containing `BlizzardAdapter`).

Shallow embedding: the adapter's mutable fields become a state record,
each Go method becomes a pure state-transformer, and the effects the
claims observe (transport writes, broadcast calls, closed connection
handles) are made explicit.  Channels of capacity 1 (the per-call
delivery slots) and bounded event buffers are lists with an explicit
capacity; `sync.Once` is a boolean flag; goroutine interaction that a
claim mentions (the wait inside `Call`, the read results seen by
`readLoop`) is supplied as an explicit environment/oracle argument.
Heap-allocated objects that outlive their registration (delivery slots,
event subscriptions) live in growing arenas (`slots`, `subs`) indexed by
`Nat`, mirroring Go pointers, so that `Close` dropping the listener list
is distinguishable from closing the subscribers' channels.
-/

namespace Blizzard

/-- Event kinds from the `devicemgr` package (`EventOnline`,
`EventOffline`, `EventNotification`). -/
inductive EventKind where
  | online
  | offline
  | notification
  deriving DecidableEq, Repr

/-- `devicemgr.Event` as far as the adapter populates it.  `OccurredAt`
(`time.Now()`) is omitted: wall-clock time is outside the embedding and
no claim observes it. -/
structure Event where
  kind : EventKind
  deviceID : String
  source : String
  payload : String
  deriving DecidableEq, Repr

/-- `RPCError`: standard JSON-RPC error object. -/
structure RPCError where
  code : Int
  message : String
  data : Option String
  deriving DecidableEq, Repr

/-- Decoded view of a frame unmarshalled into `jsonrpcResponse`:
`ID`, `Result` (`none` models a nil `json.RawMessage`) and `Error`. -/
structure RespView where
  id : String
  result : Option String
  err : Option RPCError
  deriving DecidableEq, Repr

/-- Decoded view of a frame unmarshalled into `jsonrpcNotification`. -/
structure NoteView where
  method : String
  params : String
  deriving DecidableEq, Repr

/-- An inbound transport frame, abstracted by the outcomes of the two
`json.Unmarshal` attempts `readLoop` performs on it: `resp = none`
models `json.Unmarshal(data, &resp) != nil`, `note = none` models the
notification unmarshal failing.  (For a syntactically valid JSON object
both can succeed; for invalid JSON both fail.) -/
structure Frame where
  resp : Option RespView
  note : Option NoteView
  deriving DecidableEq, Repr

/-- A pending call's delivery slot: `make(chan json.RawMessage, 1)`.
`buf` is the channel buffer (capacity 1); `chClosed` records `close(ch)`
having run.  The delivered raw bytes are represented by the decoded
`RespView` carried by the frame that delivered them. -/
structure Slot where
  buf : List RespView
  chClosed : Bool
  deriving DecidableEq, Repr

/-- A `blizzardEventSub`: buffered event channel plus the `sync.Once`
guard of its `Close`.  `closeEvents` counts how many times `close(ch)`
actually executed (in Go a second `close` would panic; `closeOnce`
prevents it). -/
structure EventSub where
  buf : List Event
  cap : Nat
  chClosed : Bool
  onceDone : Bool
  closeEvents : Nat
  deriving DecidableEq, Repr

/-- The `BlizzardAdapter` mutable state.  `conn` is the websocket handle
(`none` = nil), identified by a `Nat`; `closedConns` records every handle
on which `Close()` was invoked.  `closedFlag` models the `closed` channel
having been closed.  `pending` is the `map[string]chan json.RawMessage`
(id to slot-arena index); `listeners` holds arena indices of the
registered `*blizzardEventSub` pointers. -/
structure AdapterState where
  conn : Option Nat
  closedFlag : Bool
  slots : List Slot
  pending : List (String × Nat)
  subs : List EventSub
  listeners : List Nat
  closedConns : List Nat
  deriving DecidableEq, Repr

/-- `NewBlizzardAdapter`: fresh state (nil conn, empty pending map, no
listeners, `closed` channel open). -/
def newAdapter : AdapterState :=
  { conn := none, closedFlag := false, slots := [], pending := [],
    subs := [], listeners := [], closedConns := [] }

/-- Go map lookup `b.pending[id]`. -/
def lookupP : List (String × Nat) → String → Option Nat
  | [], _ => none
  | (k, v) :: rest, id => if k = id then some v else lookupP rest id

/-- Go map `delete(b.pending, id)`. -/
def eraseP : List (String × Nat) → String → List (String × Nat)
  | [], _ => []
  | kv :: rest, id =>
    if kv.1 = id then eraseP rest id else kv :: eraseP rest id

/-- Go map assignment `b.pending[id] = ch` (overwrites any prior
binding, so keys stay unique). -/
def insertP (p : List (String × Nat)) (id : String) (v : Nat) :
    List (String × Nat) :=
  eraseP p id ++ [(id, v)]

/-- Pointwise update of an arena at index `i`; out-of-range indices
(a nil pointer in Go) leave the arena unchanged. -/
def modifyAt {α : Type} : List α → Nat → (α → α) → List α
  | [], _, _ => []
  | x :: xs, 0, f => f x :: xs
  | x :: xs, i + 1, f => x :: modifyAt xs i f

/-- Errors `Call` can return (`errors.New` sites in `Call`, plus write
and decode failures). -/
inductive CallErr where
  | methodRequired
  | notConnected
  | writeFailed
  | deadline
  | connClosed
  | decodeFailed
  deriving DecidableEq, Repr

/-- `BlizzardResult`. -/
structure BlizzardResult where
  result : Option String
  err : Option RPCError
  deriving DecidableEq, Repr

/-- `BlizzardCall` (the timeout is in milliseconds; `Int` so that the
`call.Timeout <= 0` defaulting check is expressible). -/
structure BlizzardCall where
  method : String
  params : String
  timeoutMs : Int
  deriving DecidableEq, Repr

/-- What the blocking tail of `Call` observes, i.e. which arm of its
final `select` fires and with what: the context deadline, the slot's
channel closed without a value (`ok = false`), or delivery of raw bytes
that decode (`recv`) or fail to decode (`recvBad`) as a
`jsonrpcResponse`. -/
inductive WaitOutcome where
  | timeout
  | recvClosed
  | recv (m : RespView)
  | recvBad
  deriving DecidableEq, Repr

/-- Environment for one `Call` invocation: whether `c.WriteMessage`
fails, and which `select` arm resolves the wait. -/
structure CallEnv where
  writeFails : Bool
  wait : WaitOutcome
  deriving DecidableEq, Repr

/-- An outbound request frame as written to the transport
(`jsonrpcRequest` with `JSONRPC = "2.0"`). -/
structure ReqMsg where
  id : String
  method : String
  params : String
  deriving DecidableEq, Repr

/-- `BlizzardAdapter.Call`.  `fresh` stands for `uuid.NewString()`.
Returns the post-state, the list of frames handed to `WriteMessage`
(attempted writes, whether or not the write succeeded), and the
outcome.  Mirrors the source order exactly: method check, timeout
defaulting, slot creation and registration in `pending`, THEN the nil
check on `conn` (with no deregistration on that early return), write
(deregistering on write error), and finally the `select` on
deadline/delivery. -/
def call (s : AdapterState) (c : BlizzardCall) (fresh : String)
    (env : CallEnv) :
    AdapterState × List ReqMsg × Except CallErr BlizzardResult :=
  if c.method = "" then
    (s, [], .error .methodRequired)
  else
    -- `if call.Timeout <= 0 { call.Timeout = 5 * time.Second }`
    let _timeoutEff : Int := if c.timeoutMs ≤ 0 then 5000 else c.timeoutMs
    let slotIdx := s.slots.length
    let s1 : AdapterState :=
      { s with slots := s.slots ++ [{ buf := [], chClosed := false }],
               pending := insertP s.pending fresh slotIdx }
    match s1.conn with
    | none => (s1, [], .error .notConnected)
    | some _ =>
      let req : ReqMsg := { id := fresh, method := c.method, params := c.params }
      if env.writeFails then
        ({ s1 with pending := eraseP s1.pending fresh }, [req],
          .error .writeFailed)
      else
        match env.wait with
        | .timeout =>
          ({ s1 with pending := eraseP s1.pending fresh }, [req],
            .error .deadline)
        | .recvClosed => (s1, [req], .error .connClosed)
        | .recv m => (s1, [req], .ok { result := m.result, err := m.err })
        | .recvBad => (s1, [req], .error .decodeFailed)

/-- Set `chClosed` on every slot still registered in `pending`
(the `close(ch)` loop inside `Close`). -/
def closePendingSlots (slots : List Slot) :
    List (String × Nat) → List Slot
  | [] => slots
  | (_, i) :: rest =>
    closePendingSlots (modifyAt slots i (fun sl => { sl with chClosed := true })) rest

/-- `BlizzardAdapter.Close`.  Idempotent via the `closed` channel probe;
on first invocation it nils and closes the transport handle, closes and
drops every pending slot, and sets `listeners = nil`.  Note that it does
NOT touch the subscriber arena: subscriber channels are not closed.
Always returns a nil error (`Option String := none`). -/
def adapterClose (s : AdapterState) : AdapterState × Option String :=
  if s.closedFlag then
    (s, none)
  else
    ({ s with
        closedFlag := true
        conn := none
        closedConns := s.closedConns ++ (match s.conn with
          | some h => [h]
          | none => [])
        slots := closePendingSlots s.slots s.pending
        pending := []
        listeners := [] }, none)

/-- `BlizzardAdapter.Connect`.  URL parsing of the fixed `baseWS` is
assumed to succeed (it is a constructor argument, not claim-relevant);
`dial` is the outcome of `dialer.DialContext` (`none` = dial error,
`some h` = the new handle).  On success the handle is installed
(overwriting, without closing, any prior one) and the read loop is
started (modeled separately by `readLoop`).  There is no check of the
`closed` channel. -/
def connect (s : AdapterState) (dial : Option Nat) :
    AdapterState × Option String :=
  match dial with
  | none => (s, some "dial error")
  | some h => ({ s with conn := some h }, none)

/-- `BlizzardAdapter.reconnect`: redial with the same parameters; on
success, under `connMu`, close the prior handle if any and install the
new one.  The pending map and subscriber registry are not touched. -/
def reconnect (s : AdapterState) (dial : Option Nat) :
    AdapterState × Option String :=
  match dial with
  | none => (s, some "dial error")
  | some h =>
    ({ s with
        conn := some h
        closedConns := s.closedConns ++ (match s.conn with
          | some old => [old]
          | none => []) }, none)

/-- `BlizzardAdapter.Subscribe`: allocate a `blizzardEventSub` with a
buffer of `buffer` events, append it to `listeners`, return the handle
(its arena index).  There is no check of the `closed` channel and no
error return. -/
def subscribe (s : AdapterState) (buffer : Nat) : AdapterState × Nat :=
  let idx := s.subs.length
  ({ s with
      subs := s.subs ++ [{ buf := [], cap := buffer, chClosed := false,
                           onceDone := false, closeEvents := 0 }],
      listeners := s.listeners ++ [idx] }, idx)

/-- `blizzardEventSub.Close`: `closeOnce.Do(func() { close(e.ch) })`;
always returns a nil error. -/
def subClose (e : EventSub) : EventSub :=
  if e.onceDone then e
  else { e with onceDone := true, chClosed := true,
                closeEvents := e.closeEvents + 1 }

/-- `select { case es.ch <- evt: default: }` on one subscriber: enqueue
when the bounded buffer has space, silently drop when it is full; never
wait.  On a subscriber whose channel is already closed Go would panic on
the send; the broadcast claims quantify over live (open) subscribers, so
the closed case is modeled as a drop and excluded by hypothesis where it
matters. -/
def trySend (e : EventSub) (evt : Event) : EventSub :=
  if e.chClosed = false ∧ e.buf.length < e.cap then
    { e with buf := e.buf ++ [evt] }
  else
    e

/-- Deliver `evt` to each listener index in turn (the `for _, es :=
range listeners` loop; out-of-range indices correspond to the `es ==
nil` skip). -/
def sendAll (subs : List EventSub) (ls : List Nat) (evt : Event) :
    List EventSub :=
  ls.foldl (fun acc idx => modifyAt acc idx (fun e => trySend e evt)) subs

/-- `BlizzardAdapter.broadcast`: return immediately if the `closed`
channel is closed; otherwise snapshot the listener list under the read
lock and deliver non-blockingly to each subscriber. -/
def broadcast (s : AdapterState) (evt : Event) : AdapterState :=
  if s.closedFlag then s
  else { s with subs := sendAll s.subs s.listeners evt }

/-- The response-branch guard in `readLoop`: unmarshal succeeded,
`resp.ID != ""`, and `resp.Result != nil || resp.Error != nil`. -/
def respShaped (r : RespView) : Prop :=
  r.id ≠ "" ∧ (r.result.isSome ∨ r.err.isSome)

instance (r : RespView) : Decidable (respShaped r) := by
  unfold respShaped; infer_instance

/-- Deliver raw response bytes to the pending slot for `resp.ID`, if
any: under `pendingMu` look up and delete the entry; if it was found,
`select { case ch <- data: close(ch); default: close(ch) }`.  An absent
id is a no-op (orphan response). -/
def handleResponse (s : AdapterState) (r : RespView) : AdapterState :=
  match lookupP s.pending r.id with
  | none => s
  | some i =>
    { s with
        pending := eraseP s.pending r.id
        slots := modifyAt s.slots i (fun sl =>
          if sl.chClosed = false ∧ sl.buf.length < 1 then
            { buf := sl.buf ++ [r], chClosed := true }
          else
            { sl with chClosed := true }) }

/-- One successfully-read frame, as processed by the loop body of
`readLoop` after `ReadMessage` returned without error: first try the
response shape, else the notification shape, else drop.  Returns the
post-state and the events handed to `broadcast` (the state returned
already includes their `broadcast` effect).  Every outcome `continue`s
the loop. -/
def processFrame (s : AdapterState) (deviceID : String) (f : Frame) :
    AdapterState × List Event :=
  match f.resp with
  | some r =>
    if respShaped r then
      (handleResponse s r, [])
    else
      processNote s deviceID f.note
  | none => processNote s deviceID f.note
where
  /-- The notification fallback: drop unless the notification unmarshal
  succeeded with a non-empty method; otherwise build the
  `EventNotification` event and broadcast it. -/
  processNote (s : AdapterState) (deviceID : String) :
      Option NoteView → AdapterState × List Event
  | none => (s, [])
  | some n =>
    if n.method = "" then
      (s, [])
    else
      let evt : Event := { kind := .notification, deviceID := deviceID,
                           source := "blizzard-adapter", payload := n.params }
      (broadcast s evt, [evt])

/-- One read outcome of `c.ReadMessage()`: a frame, or a read error with
its message. -/
inductive ReadResult where
  | frame (f : Frame)
  | readErr (msg : String)
  deriving DecidableEq, Repr

/-- Why a `readLoop` run ended: the nil-conn early return, the fatal
path (second failure or failed reconnect: final Offline then `Close`),
or the oracle of reads being exhausted (the loop would block on the
next `ReadMessage`). -/
inductive ExitReason where
  | connNil
  | fatal
  | blocked
  deriving DecidableEq, Repr

/-- Result of running `readLoop` against an oracle. -/
structure LoopResult where
  state : AdapterState
  pubs : List Event
  attempts : Nat
  exit : ExitReason
  deriving Repr

/-- The retry/offline event built at the first read failure. -/
def offlineRetryEvent (deviceID msg : String) : Event :=
  { kind := .offline, deviceID := deviceID, source := "blizzard-adapter",
    payload := "read error, retrying once: " ++ msg }

/-- The final offline event (payload `err.Error()`). -/
def offlineFinalEvent (deviceID msg : String) : Event :=
  { kind := .offline, deviceID := deviceID, source := "blizzard-adapter",
    payload := msg }

/-- The `for` loop of `readLoop`, driven by oracles: `reads` supplies
successive `ReadMessage` outcomes (across transports — after a
successful reconnect the loop keeps reading from the new handle), and
`dials` supplies the outcome of each `dialer.DialContext` a `reconnect`
would perform.  `retried` is the loop-local one-shot retry flag.
`pubs` collects every event handed to `broadcast`, `attempts` counts
calls to `reconnect`. -/
def readLoopGo (deviceID : String) (s : AdapterState) (retried : Bool)
    (reads : List ReadResult) (dials : List (Option Nat)) : LoopResult :=
  match reads with
  | [] => { state := s, pubs := [], attempts := 0, exit := .blocked }
  | .frame f :: rest =>
    let p := processFrame s deviceID f
    let r := readLoopGo deviceID p.1 retried rest dials
    { r with pubs := p.2 ++ r.pubs }
  | .readErr msg :: rest =>
    if retried then
      -- retry already consumed: final Offline, Close, return
      let ev := offlineFinalEvent deviceID msg
      let s1 := broadcast s ev
      { state := (adapterClose s1).1, pubs := [ev], attempts := 0,
        exit := .fatal }
    else
      -- first failure: Offline(retrying), brief sleep, one reconnect
      let ev1 := offlineRetryEvent deviceID msg
      let s1 := broadcast s ev1
      let dial := match dials with
        | [] => none
        | d :: _ => d
      let dialsRest := match dials with
        | [] => []
        | _ :: ds => ds
      match reconnect s1 dial with
      | (s2, none) =>
        -- reconnect succeeded: re-read the handle; nil means a
        -- concurrent Close won, so Close and return
        match s2.conn with
        | none =>
          { state := (adapterClose s2).1, pubs := [ev1], attempts := 1,
            exit := .connNil }
        | some _ =>
          let r := readLoopGo deviceID s2 true rest dialsRest
          { r with pubs := ev1 :: r.pubs, attempts := r.attempts + 1 }
      | (s2, some _) =>
        -- reconnect failed: final Offline, Close, return
        let ev2 := offlineFinalEvent deviceID msg
        let s3 := broadcast s2 ev2
        { state := (adapterClose s3).1, pubs := [ev1, ev2], attempts := 1,
          exit := .fatal }

/-- `BlizzardAdapter.readLoop`: snapshot the handle, return at once if
nil, else run the loop. -/
def readLoop (deviceID : String) (s : AdapterState)
    (reads : List ReadResult) (dials : List (Option Nat)) : LoopResult :=
  match s.conn with
  | none => { state := s, pubs := [], attempts := 0, exit := .connNil }
  | some _ => readLoopGo deviceID s false reads dials

/-!
Interleaving model of the write path of `Call` (the lines
`b.connMu.RLock(); c := b.conn; b.connMu.RUnlock(); ...
c.WriteMessage(...)`) for two concurrent callers sharing one adapter.
Each caller executes the same straight-line sequence of primitive
actions; the shared state is the reader count of `connMu`.  The write
is split into a begin and an end action so that "two writes overlap" is
expressible as both program counters sitting between the two.
-/

/-- Primitive actions of `Call`'s write path, in source order. -/
inductive WAction where
  | acquireR
  | loadConn
  | releaseR
  | beginWrite
  | endWrite
  deriving DecidableEq, Repr

/-- The action sequence one `Call` performs: read-lock `connMu`, load
the handle, read-unlock, then call `WriteMessage` on the handle — with
no lock held around the write. -/
def callWritePath : List WAction := [.acquireR, .loadConn, .releaseR,
  .beginWrite, .endWrite]

/-- Two concurrent callers: each thread's program counter into
`callWritePath`, plus the number of holders of `connMu`'s read lock. -/
structure CallerPair where
  pc1 : Nat
  pc2 : Nat
  readers : Nat
  deriving DecidableEq, Repr

/-- Effect of one action on the shared lock state; `none` means the
action is not enabled (it would block).  `beginWrite`/`endWrite` demand
nothing of `connMu`: the source performs `WriteMessage` after
`RUnlock`. -/
def applyW (a : WAction) (readers : Nat) : Option Nat :=
  match a with
  | .acquireR => some (readers + 1)
  | .loadConn => if 0 < readers then some readers else none
  | .releaseR => if 0 < readers then some (readers - 1) else none
  | .beginWrite => some readers
  | .endWrite => some readers

/-- Scheduler step: run the next action of caller 1 (`true`) or caller
2 (`false`) if it exists and is enabled; otherwise the step stalls. -/
def stepPair (s : CallerPair) (t : Bool) : CallerPair :=
  let pc := if t then s.pc1 else s.pc2
  match callWritePath.get? pc with
  | none => s
  | some a =>
    match applyW a s.readers with
    | none => s
    | some rd =>
      if t then { s with pc1 := pc + 1, readers := rd }
      else { s with pc2 := pc + 1, readers := rd }

/-- Run a schedule (a list of thread choices) from a start state. -/
def runSched (sched : List Bool) (s : CallerPair) : CallerPair :=
  sched.foldl stepPair s

/-- A caller whose program counter sits between `beginWrite` and
`endWrite` is mid-write on the shared transport. -/
def inWrite (pc : Nat) : Bool := pc = 4

/-- The adapter state after the first-failure path has broadcast the
retry Offline event and reconnected successfully to handle `h`. -/
def afterRetryReconnect (dev : String) (s : AdapterState) (m : String)
    (h : Nat) : AdapterState :=
  (reconnect (broadcast s (offlineRetryEvent dev m)) (some h)).1

/-- Witness fixture: a freshly connected adapter (transport handle 1). -/
def wConn : AdapterState := (connect newAdapter (some 1)).1

/-- Witness fixture: a well-formed call. -/
def wCall : BlizzardCall := { method := "get", params := "p", timeoutMs := 1000 }

/-- Witness fixture: an environment whose wait resolves by deadline. -/
def wEnvTimeout : CallEnv := { writeFails := false, wait := .timeout }

/-- Witness fixture: a response view with a fresh id and a result. -/
def wResp : RespView := { id := "id-1", result := some "ok", err := none }

/-- Witness fixture: a subscriber whose buffer (capacity 1) is full. -/
def wSubFull : EventSub :=
  { buf := [{ kind := .notification, deviceID := "d", source := "s",
              payload := "x" }],
    cap := 1, chClosed := false, onceDone := false, closeEvents := 0 }

/-- Witness fixture: a subscriber with free buffer space. -/
def wSubRoom : EventSub :=
  { buf := [], cap := 2, chClosed := false, onceDone := false,
    closeEvents := 0 }

/-- Witness fixture: a connected adapter with a full and a non-full
subscriber registered. -/
def wBusState : AdapterState :=
  { conn := some 1, closedFlag := false, slots := [], pending := [],
    subs := [wSubFull, wSubRoom], listeners := [0, 1], closedConns := [] }

/-- Witness fixture: a notification event. -/
def wEvt : Event :=
  { kind := .notification, deviceID := "d", source := "blizzard-adapter",
    payload := "n" }

/-!  Helper lemmas about the map/arena primitives. -/

theorem modifyAt_get {α : Type} (l : List α) (i j : Nat) (f : α → α) :
    (modifyAt l i f)[j]? =
      if i = j then l[j]?.map f else l[j]? := by
  induction l generalizing i j with
  | nil => simp [modifyAt]
  | cons x xs ih =>
    cases i with
    | zero => cases j <;> simp [modifyAt]
    | succ i =>
      cases j with
      | zero => simp [modifyAt]
      | succ j => simpa [modifyAt] using ih i j

theorem lookupP_eraseP (p : List (String × Nat)) (id : String) :
    lookupP (eraseP p id) id = none := by
  induction p with
  | nil => rfl
  | cons kv rest ih =>
    by_cases h : kv.1 = id
    · simpa [eraseP, h] using ih
    · simp [eraseP, lookupP, h, ih]

theorem lookupP_append_single (q : List (String × Nat)) (id : String)
    (v : Nat) (h : lookupP q id = none) :
    lookupP (q ++ [(id, v)]) id = some v := by
  induction q with
  | nil => simp [lookupP]
  | cons kv rest ih =>
    by_cases hk : kv.1 = id
    · simp [lookupP, hk] at h
    · simp only [lookupP, hk] at h
      simpa [lookupP, hk] using ih h

theorem lookupP_insertP (p : List (String × Nat)) (id : String) (v : Nat) :
    lookupP (insertP p id v) id = some v :=
  lookupP_append_single _ _ _ (lookupP_eraseP p id)

theorem sendAll_get (evt : Event) :
    ∀ (ls : List Nat) (subs : List EventSub), ls.Nodup → ∀ i : Nat,
    (sendAll subs ls evt)[i]? =
      if i ∈ ls then subs[i]?.map (fun e => trySend e evt)
      else subs[i]? := by
  intro ls
  induction ls with
  | nil =>
    intro subs _ i
    simp [sendAll]
  | cons idx rest ih =>
    intro subs hnd i
    have hnotmem : idx ∉ rest := (List.nodup_cons.mp hnd).1
    have hnd2 : rest.Nodup := (List.nodup_cons.mp hnd).2
    have hstep : sendAll subs (idx :: rest) evt =
        sendAll (modifyAt subs idx (fun e => trySend e evt)) rest evt := rfl
    rw [hstep, ih _ hnd2 i]
    by_cases hi : i = idx
    · subst hi
      simp [hnotmem, modifyAt_get]
    · simp [List.mem_cons, hi, modifyAt_get, Ne.symm hi]

theorem adapterClose_closedFlag (s : AdapterState) :
    (adapterClose s).1.closedFlag = true := by
  unfold adapterClose
  split <;> simp_all

theorem readLoopGo_attempts_retried (dev : String) :
    ∀ (reads : List ReadResult) (s : AdapterState)
      (dials : List (Option Nat)),
    (readLoopGo dev s true reads dials).attempts = 0 := by
  intro reads
  induction reads with
  | nil => intro s dials; rfl
  | cons rr rest ih =>
    intro s dials
    cases rr with
    | frame f => simpa [readLoopGo] using ih _ _
    | readErr m => rfl

theorem readLoopGo_attempts_le_one (dev : String) :
    ∀ (reads : List ReadResult) (s : AdapterState) (retried : Bool)
      (dials : List (Option Nat)),
    (readLoopGo dev s retried reads dials).attempts ≤ 1 := by
  intro reads
  induction reads with
  | nil => intro s retried dials; simp [readLoopGo]
  | cons rr rest ih =>
    intro s retried dials
    cases rr with
    | frame f => simpa [readLoopGo] using ih _ _ _
    | readErr m =>
      cases retried with
      | true => simp [readLoopGo]
      | false =>
        cases dials with
        | nil => simp [readLoopGo, reconnect]
        | cons d ds =>
          cases d with
          | none => simp [readLoopGo, reconnect]
          | some h =>
            simp [readLoopGo, reconnect, readLoopGo_attempts_retried dev rest]

theorem readLoopGo_frame_eq (dev : String) (f : Frame)
    (rest : List ReadResult) (s : AdapterState) (retried : Bool)
    (dials : List (Option Nat)) :
    readLoopGo dev s retried (.frame f :: rest) dials =
      { state := (readLoopGo dev (processFrame s dev f).1 retried rest dials).state,
        pubs := (processFrame s dev f).2 ++
          (readLoopGo dev (processFrame s dev f).1 retried rest dials).pubs,
        attempts := (readLoopGo dev (processFrame s dev f).1 retried rest dials).attempts,
        exit := (readLoopGo dev (processFrame s dev f).1 retried rest dials).exit } :=
  rfl

theorem readLoopGo_readErr_retry_eq (dev m : String)
    (rest : List ReadResult) (s : AdapterState) (ds : List (Option Nat))
    (h : Nat) :
    readLoopGo dev s false (.readErr m :: rest) (some h :: ds) =
      { state := (readLoopGo dev (afterRetryReconnect dev s m h) true rest ds).state,
        pubs := offlineRetryEvent dev m ::
          (readLoopGo dev (afterRetryReconnect dev s m h) true rest ds).pubs,
        attempts := (readLoopGo dev (afterRetryReconnect dev s m h) true rest ds).attempts + 1,
        exit := (readLoopGo dev (afterRetryReconnect dev s m h) true rest ds).exit } :=
  rfl

theorem readLoopGo_fatal_closes (dev : String) :
    ∀ (reads : List ReadResult) (s : AdapterState) (retried : Bool)
      (dials : List (Option Nat)),
    (readLoopGo dev s retried reads dials).exit = .fatal →
    (readLoopGo dev s retried reads dials).state.closedFlag = true ∧
    ((readLoopGo dev s retried reads dials).pubs.getLast?).map Event.kind
      = some .offline := by
  intro reads
  induction reads with
  | nil => intro s retried dials hx; exact absurd hx (by simp [readLoopGo])
  | cons rr rest ih =>
    intro s retried dials
    cases rr with
    | frame f =>
      intro hx
      rw [readLoopGo_frame_eq] at hx ⊢
      have hrec := ih (processFrame s dev f).1 retried dials hx
      refine ⟨hrec.1, ?_⟩
      have hne : (readLoopGo dev (processFrame s dev f).1 retried rest dials).pubs ≠ [] := by
        intro hnil
        rw [hnil] at hrec
        simp at hrec
      show Option.map Event.kind (((processFrame s dev f).2 ++
        (readLoopGo dev (processFrame s dev f).1 retried rest dials).pubs).getLast?)
          = some .offline
      rw [List.getLast?_append_of_ne_nil _ hne]
      exact hrec.2
    | readErr m =>
      cases retried with
      | true =>
        intro _
        simp [readLoopGo, adapterClose_closedFlag, offlineFinalEvent]
      | false =>
        cases dials with
        | nil =>
          intro _
          simp [readLoopGo, reconnect, adapterClose_closedFlag,
            offlineFinalEvent]
        | cons d ds =>
          cases d with
          | none =>
            intro _
            simp [readLoopGo, reconnect, adapterClose_closedFlag,
              offlineFinalEvent]
          | some h =>
            intro hx
            rw [readLoopGo_readErr_retry_eq] at hx ⊢
            have hrec := ih (afterRetryReconnect dev s m h) true ds hx
            refine ⟨hrec.1, ?_⟩
            have hne : (readLoopGo dev (afterRetryReconnect dev s m h) true rest ds).pubs ≠ [] := by
              intro hnil
              rw [hnil] at hrec
              simp at hrec
            show Option.map Event.kind ((offlineRetryEvent dev m ::
              (readLoopGo dev (afterRetryReconnect dev s m h) true rest ds).pubs).getLast?)
                = some .offline
            rw [← List.singleton_append,
              List.getLast?_append_of_ne_nil _ hne]
            exact hrec.2

/-- C3: an inbound frame that decodes as a Response whose id has no
matching pending entry is silently discarded — the adapter state is
unchanged, no event is published, and the loop continues (every
processed frame continues the loop by construction of `processFrame`);
moreover processing the same response frame a second time is a no-op,
so no pending call's delivery slot is ever delivered twice. -/
theorem orphan_response_discarded (s : AdapterState) (dev : String)
    (r : RespView) (n : Option NoteView) (hshape : respShaped r) :
    (lookupP s.pending r.id = none →
      processFrame s dev { resp := some r, note := n } = (s, [])) ∧
    processFrame (processFrame s dev { resp := some r, note := n }).1 dev
        { resp := some r, note := n } =
      ((processFrame s dev { resp := some r, note := n }).1, []) := by
  have key : ∀ t : AdapterState,
      lookupP t.pending r.id = none → handleResponse t r = t := by
    intro t hl
    simp [handleResponse, hl]
  constructor
  · intro horph
    simp [processFrame, hshape, key s horph]
  · simp only [processFrame, if_pos hshape]
    cases hl : lookupP s.pending r.id with
    | none => simp [key s hl, key s hl ▸ key s hl]
    | some i =>
      have h2 : lookupP (handleResponse s r).pending r.id = none := by
        simp [handleResponse, hl, lookupP_eraseP]
      simp [key _ h2]

/-- C4: when the call's context deadline fires before a matching
response is delivered, `Call` returns the deadline error (`ctx.Err()`)
and the pending entry registered under the call's id has been removed
from the correlation table. -/
theorem call_timeout_returns_deadline_and_deregisters
    (s : AdapterState) (c : BlizzardCall) (fresh : String) (env : CallEnv)
    (h0 : Nat) (hm : ¬ c.method = "") (hconn : s.conn = some h0)
    (hw : env.writeFails = false) (ht : env.wait = .timeout) :
    (call s c fresh env).2.2 = .error .deadline ∧
    lookupP (call s c fresh env).1.pending fresh = none := by
  simp [call, hm, hconn, hw, ht, lookupP_eraseP]

/-- C5: a `Call` invoked while no live transport is installed returns
the not-connected error immediately and hands nothing to
`WriteMessage`. -/
theorem call_not_connected_fails_without_write
    (s : AdapterState) (c : BlizzardCall) (fresh : String) (env : CallEnv)
    (hm : ¬ c.method = "") (hconn : s.conn = none) :
    (call s c fresh env).2.2 = .error .notConnected ∧
    (call s c fresh env).2.1 = [] := by
  simp [call, hm, hconn]

/-- C10: on the not-connected return path `Call` does not deregister
the entry it just registered for the fresh id: the entry is still in
the correlation table (bound to the newly created slot) after `Call`
returns, and only adapter `Close` drains it. -/
theorem call_not_connected_leaves_pending_until_close
    (s : AdapterState) (c : BlizzardCall) (fresh : String) (env : CallEnv)
    (hm : ¬ c.method = "") (hconn : s.conn = none)
    (hcl : s.closedFlag = false) :
    lookupP (call s c fresh env).1.pending fresh = some s.slots.length ∧
    (adapterClose (call s c fresh env).1).1.pending = [] := by
  constructor
  · simp [call, hm, hconn, lookupP_insertP]
  · simp [call, hm, hconn, adapterClose, hcl]

/-- C6: a successful `reconnect` returns a nil error, installs the new
transport handle, closes the prior handle if one was installed, and
leaves the correlation table (both the pending map and the slot arena)
untouched: every call pending before the reconnect is pending, under
the same id, after it. -/
theorem reconnect_swaps_transport_preserves_pending
    (s : AdapterState) (h : Nat) :
    (reconnect s (some h)).2 = none ∧
    (reconnect s (some h)).1.conn = some h ∧
    (reconnect s (some h)).1.pending = s.pending ∧
    (reconnect s (some h)).1.slots = s.slots ∧
    (∀ old : Nat, s.conn = some old →
      old ∈ (reconnect s (some h)).1.closedConns) := by
  refine ⟨rfl, rfl, rfl, rfl, ?_⟩
  intro old hold
  simp [reconnect, hold]

/-- C7: over any read-loop lifetime at most one reconnect attempt is
made, and whenever the loop exits through the fatal path (a read
failure after the single retry was consumed, or a failed reconnect) the
last event published is an Offline event and the adapter has been
Closed. -/
theorem readLoop_at_most_one_reconnect_then_fatal_close
    (dev : String) (s : AdapterState) (reads : List ReadResult)
    (dials : List (Option Nat)) :
    (readLoop dev s reads dials).attempts ≤ 1 ∧
    ((readLoop dev s reads dials).exit = .fatal →
      (readLoop dev s reads dials).state.closedFlag = true ∧
      ((readLoop dev s reads dials).pubs.getLast?).map Event.kind
        = some .offline) := by
  cases hc : s.conn with
  | none => simp [readLoop, hc]
  | some h =>
    simp only [readLoop, hc]
    exact ⟨readLoopGo_attempts_le_one dev reads s false dials,
      readLoopGo_fatal_closes dev reads s false dials⟩

/-- C8: publishing an event on a non-closed adapter delivers it to each
registered live subscriber with buffer space by appending it to that
buffer, silently drops it for each registered subscriber whose buffer
is full, and leaves unregistered subscribers untouched; each delivery
is the non-waiting `trySend` (the `select`/`default`), so no subscriber
can stall the publisher. -/
theorem broadcast_nonblocking_per_subscriber
    (s : AdapterState) (evt : Event) (i : Nat) (e : EventSub)
    (hcl : s.closedFlag = false) (hnd : s.listeners.Nodup)
    (he : s.subs[i]? = some e) (hopen : e.chClosed = false) :
    (i ∈ s.listeners →
      (if e.buf.length < e.cap
       then (broadcast s evt).subs[i]? = some { e with buf := e.buf ++ [evt] }
       else (broadcast s evt).subs[i]? = some e)) ∧
    (i ∉ s.listeners → (broadcast s evt).subs[i]? = some e) := by
  have hb : (broadcast s evt).subs = sendAll s.subs s.listeners evt := by
    simp [broadcast, hcl]
  constructor
  · intro hmem
    rw [hb, sendAll_get evt _ _ hnd i, if_pos hmem, he]
    by_cases hsp : e.buf.length < e.cap
    · rw [if_pos hsp]
      simp [trySend, hopen, hsp]
    · rw [if_neg hsp]
      simp [trySend, hopen, hsp]
  · intro hmem
    rw [hb, sendAll_get evt _ _ hnd i, if_neg hmem, he]

/-- C1 counterexample: the Closed state is not terminal for `Connect`
and `Subscribe`.  Starting from a connected adapter that has been
Closed, `Connect` with a successful dial returns a nil error and
installs a new transport, and `Subscribe` successfully registers a new
listener — contradicting the claim that no subsequent Connect or
Subscribe invocation succeeds. -/
theorem closed_not_terminal_cex :
    (adapterClose (connect newAdapter (some 1)).1).1.closedFlag = true ∧
    (connect (adapterClose (connect newAdapter (some 1)).1).1 (some 2)).2
      = none ∧
    (connect (adapterClose (connect newAdapter (some 1)).1).1 (some 2)).1.conn
      = some 2 ∧
    (subscribe (adapterClose (connect newAdapter (some 1)).1).1 4).1.listeners
      = [0] := by
  decide

/-- C1 amended: after `Close`, `Call` fails with the not-connected
error (and writes nothing), and `Close` itself is idempotent — calling
it again returns nil with no further effect; however `Connect` and
`Subscribe` are not rejected after Close: `Connect` with a successful
dial returns nil and `Subscribe` registers a fresh subscriber. -/
theorem close_terminality_amended
    (s : AdapterState) (c : BlizzardCall) (fresh : String) (env : CallEnv)
    (buffer hNew : Nat) (hm : ¬ c.method = "") (hcl : s.closedFlag = false) :
    (call (adapterClose s).1 c fresh env).2.2 = .error .notConnected ∧
    (call (adapterClose s).1 c fresh env).2.1 = [] ∧
    adapterClose (adapterClose s).1 = ((adapterClose s).1, none) ∧
    (connect (adapterClose s).1 (some hNew)).2 = none ∧
    (subscribe (adapterClose s).1 buffer).1.listeners
      = [(adapterClose s).1.subs.length] := by
  have hconn : (adapterClose s).1.conn = none := by
    simp [adapterClose, hcl]
  have hlist : (adapterClose s).1.listeners = [] := by
    simp [adapterClose, hcl]
  have hflag := adapterClose_closedFlag s
  refine ⟨?_, ?_, ?_, rfl, ?_⟩
  · simp [call, hm, hconn]
  · simp [call, hm, hconn]
  · rw [adapterClose, if_pos hflag]
  · simp [subscribe, hlist]

/-- C2 counterexample: adapter `Close` does not end any live
subscriber's event stream.  With one live subscription, after
`adapterClose` the subscriber's channel is still open and `close(ch)`
ran zero times on it (`closeEvents = 0`); Close merely emptied the
listener registry — contradicting the claim that each live subscriber's
channel is closed exactly once as a consequence of adapter Close. -/
theorem close_leaves_subscriber_channels_open_cex :
    (adapterClose (subscribe (connect newAdapter (some 1)).1 4).1).1.subs
      = [{ buf := [], cap := 4, chClosed := false, onceDone := false,
           closeEvents := 0 }] ∧
    (adapterClose (subscribe (connect newAdapter (some 1)).1 4).1).1.listeners
      = [] ∧
    (adapterClose (subscribe (connect newAdapter (some 1)).1 4).1).1.closedFlag
      = true := by
  decide

/-- C2 amended: adapter `Close` unregisters every subscriber (it clears
the listener list and subsequent broadcasts are no-ops) but closes no
subscriber channel; a subscription's stream ends only through its own
`Close`, which closes the channel exactly once and is idempotent. -/
theorem close_unregisters_subscribers_amended
    (s : AdapterState) (e : EventSub) (hcl : s.closedFlag = false) :
    (adapterClose s).1.listeners = [] ∧
    (adapterClose s).1.subs = s.subs ∧
    (∀ evt : Event, broadcast (adapterClose s).1 evt = (adapterClose s).1) ∧
    subClose (subClose e) = subClose e ∧
    (e.onceDone = false →
      (subClose e).closeEvents = e.closeEvents + 1 ∧
      (subClose e).chClosed = true) := by
  refine ⟨?_, ?_, ?_, ?_, ?_⟩
  · simp [adapterClose, hcl]
  · simp [adapterClose, hcl]
  · intro evt
    simp [broadcast, adapterClose_closedFlag]
  · cases he : e.onceDone <;> simp [subClose, he]
  · intro he
    simp [subClose, he]

/-- C9: the write path of `Call` does not serialize outbound frame
writes.  Under the schedule that runs caller 1 through read-lock,
handle load, read-unlock and into `WriteMessage`, then runs caller 2
the same way, both callers end up mid-write on the shared transport at
once, with no holder of `connMu` — so concurrent `Call` invocations'
writes can overlap, contradicting the single-logical-writer
requirement. -/
theorem concurrent_call_writes_overlap :
    inWrite (runSched [true, true, true, true, false, false, false, false]
      { pc1 := 0, pc2 := 0, readers := 0 }).pc1 = true ∧
    inWrite (runSched [true, true, true, true, false, false, false, false]
      { pc1 := 0, pc2 := 0, readers := 0 }).pc2 = true ∧
    (runSched [true, true, true, true, false, false, false, false]
      { pc1 := 0, pc2 := 0, readers := 0 }).readers = 0 := by
  decide

/-- Witness for C3 at a concrete orphan response on a fresh adapter. -/
theorem orphan_response_discarded_witness :
    respShaped wResp ∧
    ((lookupP newAdapter.pending wResp.id = none →
        processFrame newAdapter "dev" { resp := some wResp, note := none }
          = (newAdapter, [])) ∧
      processFrame
          (processFrame newAdapter "dev"
            { resp := some wResp, note := none }).1 "dev"
          { resp := some wResp, note := none } =
        ((processFrame newAdapter "dev"
            { resp := some wResp, note := none }).1, [])) :=
  ⟨by decide, orphan_response_discarded newAdapter "dev" wResp none (by decide)⟩

/-- Witness for C4 at a concrete connected adapter and a timing-out
call. -/
theorem call_timeout_returns_deadline_and_deregisters_witness :
    (¬ wCall.method = "" ∧ wConn.conn = some 1 ∧
      wEnvTimeout.writeFails = false ∧ wEnvTimeout.wait = .timeout) ∧
    ((call wConn wCall "id-1" wEnvTimeout).2.2 = .error .deadline ∧
      lookupP (call wConn wCall "id-1" wEnvTimeout).1.pending "id-1" = none) :=
  ⟨⟨by decide, by decide, by decide, by decide⟩,
    call_timeout_returns_deadline_and_deregisters wConn wCall "id-1"
      wEnvTimeout 1 (by decide) (by decide) (by decide) (by decide)⟩

/-- Witness for C5 on a fresh (never-connected) adapter. -/
theorem call_not_connected_fails_without_write_witness :
    (¬ wCall.method = "" ∧ newAdapter.conn = none) ∧
    ((call newAdapter wCall "id-1" wEnvTimeout).2.2 = .error .notConnected ∧
      (call newAdapter wCall "id-1" wEnvTimeout).2.1 = []) :=
  ⟨⟨by decide, by decide⟩,
    call_not_connected_fails_without_write newAdapter wCall "id-1"
      wEnvTimeout (by decide) (by decide)⟩

/-- Witness for C10 on a fresh (never-connected) adapter. -/
theorem call_not_connected_leaves_pending_until_close_witness :
    (¬ wCall.method = "" ∧ newAdapter.conn = none ∧
      newAdapter.closedFlag = false) ∧
    (lookupP (call newAdapter wCall "id-1" wEnvTimeout).1.pending "id-1"
        = some newAdapter.slots.length ∧
      (adapterClose (call newAdapter wCall "id-1" wEnvTimeout).1).1.pending
        = []) :=
  ⟨⟨by decide, by decide, by decide⟩,
    call_not_connected_leaves_pending_until_close newAdapter wCall "id-1"
      wEnvTimeout (by decide) (by decide) (by decide)⟩

/-- Witness for C6: reconnecting a connected adapter to handle 2. -/
theorem reconnect_swaps_transport_preserves_pending_witness :
    (reconnect wConn (some 2)).2 = none ∧
    (reconnect wConn (some 2)).1.conn = some 2 ∧
    (reconnect wConn (some 2)).1.pending = wConn.pending ∧
    (reconnect wConn (some 2)).1.slots = wConn.slots ∧
    (∀ old : Nat, wConn.conn = some old →
      old ∈ (reconnect wConn (some 2)).1.closedConns) :=
  reconnect_swaps_transport_preserves_pending wConn 2

/-- Witness for C7: a run with two consecutive read failures and one
successful dial — the single reconnect is consumed by the first
failure and the second is fatal. -/
theorem readLoop_at_most_one_reconnect_then_fatal_close_witness :
    (readLoop "d" wConn [.readErr "boom", .readErr "boom2"]
        [some 2]).attempts ≤ 1 ∧
    ((readLoop "d" wConn [.readErr "boom", .readErr "boom2"]
        [some 2]).exit = .fatal →
      (readLoop "d" wConn [.readErr "boom", .readErr "boom2"]
          [some 2]).state.closedFlag = true ∧
      ((readLoop "d" wConn [.readErr "boom", .readErr "boom2"]
          [some 2]).pubs.getLast?).map Event.kind = some .offline) :=
  readLoop_at_most_one_reconnect_then_fatal_close "d" wConn
    [.readErr "boom", .readErr "boom2"] [some 2]

/-- Witness for C8: publishing with a full and a non-full subscriber
registered; instantiated at the non-full one. -/
theorem broadcast_nonblocking_per_subscriber_witness :
    (wBusState.closedFlag = false ∧ wBusState.listeners.Nodup ∧
      wBusState.subs[1]? = some wSubRoom ∧ wSubRoom.chClosed = false) ∧
    ((1 ∈ wBusState.listeners →
        (if wSubRoom.buf.length < wSubRoom.cap
         then (broadcast wBusState wEvt).subs[1]?
            = some { wSubRoom with buf := wSubRoom.buf ++ [wEvt] }
         else (broadcast wBusState wEvt).subs[1]? = some wSubRoom)) ∧
      (1 ∉ wBusState.listeners →
        (broadcast wBusState wEvt).subs[1]? = some wSubRoom)) :=
  ⟨⟨by decide, by decide, by decide, by decide⟩,
    broadcast_nonblocking_per_subscriber wBusState wEvt 1 wSubRoom
      (by decide) (by decide) (by decide) (by decide)⟩

/-- Witness for the amended C1 at a concrete connected adapter. -/
theorem close_terminality_amended_witness :
    (¬ wCall.method = "" ∧ wConn.closedFlag = false) ∧
    ((call (adapterClose wConn).1 wCall "id-1" wEnvTimeout).2.2
        = .error .notConnected ∧
      (call (adapterClose wConn).1 wCall "id-1" wEnvTimeout).2.1 = [] ∧
      adapterClose (adapterClose wConn).1 = ((adapterClose wConn).1, none) ∧
      (connect (adapterClose wConn).1 (some 7)).2 = none ∧
      (subscribe (adapterClose wConn).1 4).1.listeners
        = [(adapterClose wConn).1.subs.length]) :=
  ⟨⟨by decide, by decide⟩,
    close_terminality_amended wConn wCall "id-1" wEnvTimeout 4 7
      (by decide) (by decide)⟩

/-- Witness for the amended C2 at a concrete connected adapter and a
not-yet-closed subscription. -/
theorem close_unregisters_subscribers_amended_witness :
    wConn.closedFlag = false ∧
    ((adapterClose wConn).1.listeners = [] ∧
      (adapterClose wConn).1.subs = wConn.subs ∧
      (∀ evt : Event,
        broadcast (adapterClose wConn).1 evt = (adapterClose wConn).1) ∧
      subClose (subClose wSubRoom) = subClose wSubRoom ∧
      (wSubRoom.onceDone = false →
        (subClose wSubRoom).closeEvents = wSubRoom.closeEvents + 1 ∧
        (subClose wSubRoom).chClosed = true)) :=
  ⟨by decide,
    close_unregisters_subscribers_amended wConn wSubRoom (by decide)⟩

end Blizzard
